import Mathlib

/-!
Shallow embedding of the `overpass_parser_rust` query compiler
(Overpass QL → SQL), covering the data model and the operations that the
specification's claims are about: the pest parse-tree → AST construction
(`from_pest` functions), the SQL dialect capability set with its two
concrete dialects (PostgreSQL, DuckDB), and the SQL emitters for filters,
query objects, recursion, the statement list assembly and the library
entry point.

Strings are Lean `String`s; the Rust helpers used by the source
(`str::split`, `str::trim`, `str::replace`, `Regex` line-start insertion)
are translated as explicit `List Char` recursions below so that proofs
can reason about them by induction.

Rust `f64` values that the source merely parses and re-prints (bbox
coordinates, poly points, around radii) are modelled by `F64`, a wrapper
around the canonical decimal literal of the value: the model's parser
accepts exactly the canonical literals (an under-approximation of Rust's
`f64::from_str`, which also accepts non-canonical spellings); no claim in
scope depends on float arithmetic, only on pass-through and ordering.
Rust `i64` parsing is modelled exactly, including the overflow failure.
-/

namespace OP

/-! ## String utilities (translations of the Rust helpers) -/

/-- Is `pat` an infix of `l`?  Executable infix test on char lists. -/
def listContainsSub (pat : List Char) : List Char → Bool
  | [] => pat.isEmpty
  | c :: cs => pat.isPrefixOf (c :: cs) || listContainsSub pat cs

/-- Substring test on strings, via `listContainsSub`. -/
def strContainsSub (s pat : String) : Bool :=
  listContainsSub pat.data s.data

/-- Does `s` start with `pre`? -/
def strStartsWith (s pre : String) : Bool :=
  pre.data.isPrefixOf s.data

/-- Does the string end with the `;` character? -/
def endsSemi (s : String) : Bool :=
  s.data.getLast? == some ';'

/-- Rust's `str::split(c)`: split a char list at every occurrence of `c`
(keeping empty pieces). -/
def splitOnChar (c : Char) : List Char → List (List Char)
  | [] => [[]]
  | x :: xs =>
    match splitOnChar c xs with
    | [] => [[]]
    | h :: t => if x = c then [] :: h :: t else (x :: h) :: t

/-- Rust's `str::trim` (drop leading and trailing whitespace). -/
def trimChars (cs : List Char) : List Char :=
  ((cs.dropWhile Char.isWhitespace).reverse.dropWhile Char.isWhitespace).reverse

/-- Rust `str::trim` at the `String` level. -/
def rustTrim (s : String) : String :=
  ⟨trimChars s.data⟩

/-- Scanner for `str::replace`: `skip` counts pattern characters still
to be consumed after a match was emitted.  Structurally recursive on the
input so that the kernel can evaluate it. -/
def replaceSubAux (pat rep : List Char) (skip : Nat) : List Char → List Char
  | [] => []
  | c :: cs =>
    match skip with
    | n + 1 => replaceSubAux pat rep n cs
    | 0 =>
      if pat ≠ [] ∧ pat.isPrefixOf (c :: cs) then
        rep ++ replaceSubAux pat rep (pat.length - 1) cs
      else
        c :: replaceSubAux pat rep 0 cs

/-- Rust's `str::replace(pat, rep)`: leftmost non-overlapping replacement. -/
def replaceSub (pat rep : List Char) (l : List Char) : List Char :=
  replaceSubAux pat rep 0 l

/-- Rust `str::replace` at the `String` level. -/
def strReplace (s pat rep : String) : String :=
  ⟨replaceSub pat.data rep.data s.data⟩

/-- The source's `Regex::new(r"(?m)^").replace_all(s, ind)`: insert `ind`
at the start of the string and after every newline. -/
def indentLines (ind s : String) : String :=
  ind ++ strReplace s "\n" ("\n" ++ ind)

/-- Split a char list the way `Regex::new(r"\s+").split` does: cut at
every maximal run of whitespace, keeping an empty piece for a leading or
trailing run. -/
def splitWsRuns : List Char → List (List Char)
  | [] => [[]]
  | c :: cs =>
    match splitWsRuns cs with
    | [] => [[]]
    | h :: t =>
      if c.isWhitespace then
        match h, t with
        | [], _ :: _ => [] :: t
        | _, _ => [] :: h :: t
      else
        (c :: h) :: t

/-! ## Number models -/

/-- Value of a digit list (most significant first); digits assumed checked. -/
def digitsToNat : List Char → Nat
  | [] => 0
  | c :: cs => (c.toNat - '0'.toNat) * 10 ^ cs.length + digitsToNat cs

/-- Model of Rust `str::parse::<i64>()`: optional sign, decimal digits,
failure on anything else or on values outside the `i64` range. -/
def parseI64 (s : String) : Option Int :=
  let (sign, digits) : Int × List Char :=
    match s.data with
    | '-' :: ds => (-1, ds)
    | '+' :: ds => (1, ds)
    | ds => (1, ds)
  if digits ≠ [] ∧ digits.all Char.isDigit then
    let v : Int := sign * digitsToNat digits
    if -(2 ^ 63) ≤ v ∧ v ≤ 2 ^ 63 - 1 then some v else none
  else none

/-- Model of Rust `str::parse::<u32>()`: decimal digits only, failure on
values above `u32::MAX`. -/
def parseU32 (s : String) : Option Nat :=
  if s.data ≠ [] ∧ s.data.all Char.isDigit then
    let v := digitsToNat s.data
    if v ≤ 2 ^ 32 - 1 then some v else none
  else none

/-- Characters that may appear in a canonical `f64` literal. -/
def f64CharOk (c : Char) : Bool :=
  c.isDigit || c = '-' || c = '.'

/-- Shape of a canonical positive decimal literal: a nonempty integer
part with no spurious leading zero, optionally a `.` and a nonempty
fractional part not ending in `0`. -/
def isCanonPos (cs : List Char) : Bool :=
  let ip := cs.takeWhile Char.isDigit
  let rest := cs.drop ip.length
  (!ip.isEmpty) && (ip.head? != some '0' || ip.length == 1) &&
    match rest with
    | [] => true
    | '.' :: fp => (!fp.isEmpty) && fp.all Char.isDigit && fp.getLast? != some '0'
    | _ => false

/-- Canonical decimal literal of a finite double: these are exactly the
strings on which Rust's parse-then-`Display` round-trips identically. -/
def isCanonF64 (cs : List Char) : Bool :=
  cs.all f64CharOk &&
    match cs with
    | '-' :: rest => isCanonPos rest
    | _ => isCanonPos cs

/-- Model of a finite `f64` as its canonical literal (see header note). -/
structure F64 where
  lit : String
deriving DecidableEq, Repr

/-- Model of Rust `str::parse::<f64>()`, restricted to canonical
literals (the source only parses and re-prints these values). -/
def parseF64 (s : String) : Option F64 :=
  if isCanonF64 s.data then some ⟨s⟩ else none

/-- Rust `Display` of the modelled double. -/
def F64.str (f : F64) : String := f.lit

/-- Rust `Display` of an `i64`. -/
def i64Str (n : Int) : String := toString n

/-- Stand-in for Rust's `DefaultHasher` 64-bit string hash (FNV-1a):
the real hasher is SipHash with unspecified keys and its concrete value
is pinned by no claim; only determinism matters here. -/
def rustHash64 (s : String) : Nat :=
  s.data.foldl (fun h c => ((h ^^^ c.toNat) * 1099511628211) % 2 ^ 64) 14695981039346656037

/-! ## Parse-tree model (pest `Pair`s) -/

/-- The grammar rules of `overpass.pest` that the AST builders inspect. -/
inductive Rule where
  | request | metadata | number | query_sequence | out
  | query_object | query_union | query_recurse
  | object_type | selector | filters | ID | asignation
  | not | key | operator | value
  | filter_bbox | filter_poly | filter_osm_id | filter_osm_ids
  | filter_area | filter_around | filter_around_core | filter_around_radius
  | out_geom | out_level_of_details
  | unknown (tag : Nat)
deriving DecidableEq, Repr

/-- Rust `Debug` name of a rule, as interpolated into error messages. -/
def Rule.name : Rule → String
  | .request => "request" | .metadata => "metadata" | .number => "number"
  | .query_sequence => "query_sequence" | .out => "out"
  | .query_object => "query_object" | .query_union => "query_union"
  | .query_recurse => "query_recurse" | .object_type => "object_type"
  | .selector => "selector" | .filters => "filters" | .ID => "ID"
  | .asignation => "asignation" | .not => "not"
  | .key => "key" | .operator => "operator"
  | .value => "value" | .filter_bbox => "filter_bbox"
  | .filter_poly => "filter_poly" | .filter_osm_id => "filter_osm_id"
  | .filter_osm_ids => "filter_osm_ids" | .filter_area => "filter_area"
  | .filter_around => "filter_around"
  | .filter_around_core => "filter_around_core"
  | .filter_around_radius => "filter_around_radius"
  | .out_geom => "out_geom" | .out_level_of_details => "out_level_of_details"
  | .unknown t => "unknown_" ++ toString t

/-- A byte span in the input, as carried by pest pairs and errors. -/
structure Span where
  lo : Nat
  hi : Nat
deriving DecidableEq, Repr

/-- A pest `Pair`: matched rule, matched text, span and inner pairs. -/
inductive Pair where
  | mk (rule : Rule) (str : String) (span : Span) (children : List Pair)

mutual

def Pair.decEq : (p q : Pair) → Decidable (p = q)
  | .mk r1 s1 sp1 cs1, .mk r2 s2 sp2 cs2 =>
    if h1 : r1 = r2 then
      if h2 : s1 = s2 then
        if h3 : sp1 = sp2 then
          match Pair.decEqList cs1 cs2 with
          | isTrue h4 => isTrue (by rw [h1, h2, h3, h4])
          | isFalse h4 => isFalse (fun he => by cases he; exact h4 rfl)
        else isFalse (fun he => by cases he; exact h3 rfl)
      else isFalse (fun he => by cases he; exact h2 rfl)
    else isFalse (fun he => by cases he; exact h1 rfl)

def Pair.decEqList : (a b : List Pair) → Decidable (a = b)
  | [], [] => isTrue rfl
  | [], _ :: _ => isFalse (by simp)
  | _ :: _, [] => isFalse (by simp)
  | x :: xs, y :: ys =>
    match Pair.decEq x y, Pair.decEqList xs ys with
    | isTrue h1, isTrue h2 => isTrue (by rw [h1, h2])
    | isFalse h1, _ => isFalse (fun he => by cases he; exact h1 rfl)
    | _, isFalse h2 => isFalse (fun he => by cases he; exact h2 rfl)

end

instance : DecidableEq Pair := Pair.decEq

def Pair.rule : Pair → Rule
  | .mk r _ _ _ => r

def Pair.str : Pair → String
  | .mk _ s _ _ => s

def Pair.span : Pair → Span
  | .mk _ _ sp _ => sp

def Pair.children : Pair → List Pair
  | .mk _ _ _ cs => cs

theorem Pair.sizeOf_lt_of_mem {p c : Pair} (h : c ∈ p.children) :
    sizeOf c < sizeOf p := by
  cases p with
  | mk r s sp cs =>
    simp only [Pair.children] at h
    have := List.sizeOf_lt_of_mem h
    simp only [Pair.mk.sizeOf_spec]
    omega

/-- A `pest::error::Error` value: custom message plus source span. -/
structure PErr where
  message : String
  span : Span
deriving DecidableEq, Repr

/-- Outcome of a Rust computation that may return `Err` or panic:
`crash` models a Rust panic (process abort), distinct from `Err`. -/
inductive PRes (α : Type) where
  | ok (a : α)
  | err (e : PErr)
  | crash (msg : String)
deriving DecidableEq, Repr

def PRes.bind : PRes α → (α → PRes β) → PRes β
  | .ok a, f => f a
  | .err e, _ => .err e
  | .crash m, _ => .crash m

instance : Monad PRes where
  pure := PRes.ok
  bind := PRes.bind

/-- Rust `Err(Error::new_from_span(CustomError { message }, span))`. -/
def perr (message : String) (span : Span) : PRes α :=
  .err ⟨message, span⟩

/-! ## SQL dialect capability set (`sql_dialect.rs`) -/

/-- The `SqlDialect` trait, restricted to the capabilities exercised by
the emitters embedded below. -/
structure SqlDialect where
  escape_literal : String → String
  statement_timeout : Nat → Option String
  is_precompute : Bool
  precompute : String → String → Option (List String)
  id_in_list : String → List Int → String
  hash_exists : String → String
  hash_get : String → String
  st_union : String
  table_precompute_geom : String → String
  st_intersects_with_geom : String → String → String
  st_intersects_extent_with_geom : String → String → String
  st_transform : String → String → String
  st_transform_reverse : String → String → String

/-- Rust `format!("'{}'", string.replace('\x27', "''"))`. -/
def quoteLiteral (s : String) : String :=
  "'" ++ strReplace s "'" "''" ++ "'"

/-- The PostgreSQL dialect (`postgres.rs`), with no injected custom
escape function.  `is_precompute`, `precompute` and
`table_precompute_geom` are absent from the file in `src/`; they are
modelled from the spec (PostgreSQL has no precomputation; a precomputed
set is referenced as `_<set>.geom`, as pinned by the repository tests). -/
def postgres : SqlDialect where
  escape_literal := quoteLiteral
  statement_timeout := fun t => some ("SET statement_timeout = " ++ toString t ++ ";")
  is_precompute := false
  precompute := fun _ _ => none
  id_in_list := fun field values =>
    field ++ " = ANY (ARRAY[" ++ String.intercalate ", " (values.map i64Str) ++ "])"
  hash_exists := fun k => "tags?" ++ quoteLiteral k
  hash_get := fun k => "tags->>" ++ quoteLiteral k
  st_union := "ST_Union"
  table_precompute_geom := fun other => "_" ++ other ++ ".geom"
  st_intersects_with_geom := fun table geom =>
    "ST_Intersects(\n    " ++ geom ++ ",\n    " ++ table ++ ".geom\n)"
  st_intersects_extent_with_geom := fun table geom =>
    "ST_Intersects(\n    " ++ geom ++ ",\n    " ++ table ++ ".geom\n)"
  st_transform := fun geom srid => "ST_Transform(" ++ geom ++ ", " ++ srid ++ ")"
  st_transform_reverse := fun geom _ => "ST_Transform(" ++ geom ++ ", 4326)"

/-- The DuckDB dialect (`duckdb.rs`). -/
def duckdb : SqlDialect where
  escape_literal := quoteLiteral
  statement_timeout := fun _ => none
  is_precompute := true
  precompute := fun set sql =>
    some ["CREATE TEMP TABLE _" ++ set ++ " AS\n" ++ sql ++ "\n;",
      "SET variable _" ++ set ++ "_bbox = (\n    SELECT\n        STRUCT_PACK(\n            xmin := min(bbox.xmin),\n            ymin := min(bbox.ymin),\n            xmax := max(bbox.xmax),\n            ymax := max(bbox.ymax),\n            geom := ST_Union_Agg(geom)\n        ) AS bbox_geom\n    FROM\n        _"
        ++ set ++ "\n)\n;"]
  id_in_list := fun field values =>
    "(" ++ String.intercalate " OR " (values.map (fun v => field ++ " = " ++ i64Str v)) ++ ")"
  hash_exists := fun k => "(tags->>" ++ quoteLiteral k ++ ") IS NOT NULL"
  hash_get := fun k => "(tags->>" ++ quoteLiteral k ++ ")"
  st_union := ""
  table_precompute_geom := fun other => "getvariable('_" ++ other ++ "_bbox').geom"
  st_intersects_with_geom := fun table other =>
    (table ++ ".bbox.xmin <= " ++ strReplace other ".geom" "" ++ ".xmax AND\n"
        ++ table ++ ".bbox.xmax >= " ++ strReplace other ".geom" "" ++ ".xmin AND\n"
        ++ table ++ ".bbox.ymin <= " ++ strReplace other ".geom" "" ++ ".ymax AND\n"
        ++ table ++ ".bbox.ymax >= " ++ strReplace other ".geom" "" ++ ".ymin")
      ++ " AND\n"
      ++ "ST_Intersects(\n    " ++ other ++ ",\n    " ++ table ++ ".geom\n)"
  st_intersects_extent_with_geom := fun table other =>
    table ++ ".bbox.xmin <= " ++ other ++ ".xmax AND\n"
      ++ table ++ ".bbox.xmax >= " ++ other ++ ".xmin AND\n"
      ++ table ++ ".bbox.ymin <= " ++ other ++ ".ymax AND\n"
      ++ table ++ ".bbox.ymax >= " ++ other ++ ".ymin"
  st_transform := fun geom srid =>
    if srid = "4326" then geom
    else "ST_Transform(" ++ geom ++ ", 'EPSG:4326', 'EPSG:" ++ srid ++ "')"
  st_transform_reverse := fun geom srid =>
    if srid = "4326" then geom
    else "ST_Transform(" ++ geom ++ ", 'EPSG:" ++ srid ++ "', 'EPSG:4326')"

/-! ## AST entities and their construction (`from_pest`) -/

/-- Struct `Selector` (`selectors.rs`): the compiled regex of a `~`/`!~`
selector is kept as its source text; whether `Regex::new` succeeds is
abstracted by the `regexOk` parameter of `Selector.from_pest`. -/
structure Selector where
  not : Bool := false
  key : String := ""
  operator : Option String := none
  value : Option String := none
  value_regex : Option String := none
deriving DecidableEq, Repr

/-- Struct `Selectors` (`selectors.rs`). -/
structure Selectors where
  selectors : List Selector := []
deriving DecidableEq, Repr

/-- Method `Selector::unquote`.  (For a 1-character quoted input the Rust slice
`[1..len-1]` would panic; the grammar makes values at least 2 characters
when quoted, and the model returns the empty string there.) -/
def unquote (value : String) : String :=
  if (strStartsWith value "\"" && value.data.getLast? == some '"')
      || (strStartsWith value "'" && value.data.getLast? == some '\x27') then
    ⟨(value.data.drop 1).dropLast⟩
  else value

/-- Loop body of `Selector::from_pest`. -/
def Selector.fromPestStep (regexOk : String → Bool) (sel : Selector)
    (child : Pair) : PRes Selector :=
  match child.rule with
  | .not => pure { sel with not := child.str == "!" }
  | .key => pure { sel with key := unquote child.str }
  | .operator => pure { sel with operator := some child.str }
  | .value =>
    let value := unquote child.str
    match sel.operator with
    | none => .crash "called Option::unwrap on a None value"
    | some op =>
      if op == "~" || op == "!~" then
        pure { sel with value_regex := if regexOk value then some value else none }
      else
        pure { sel with value := some value }
  | r => perr ("Invalid rule " ++ r.name ++ " for Selector") child.span

/-- Method `Selector::from_pest`. -/
def Selector.from_pest (regexOk : String → Bool) (p : Pair) : PRes Selector :=
  p.children.foldlM (Selector.fromPestStep regexOk) ({} : Selector)

/-- Struct `FilterAround` (`filters.rs`); the `f64` default is `0`. -/
structure FilterAround where
  core : String := ""
  radius : F64 := ⟨"0"⟩
deriving DecidableEq, Repr

/-- Struct `Filter` (`filters.rs`). -/
structure Filter where
  bbox : Option (F64 × F64 × F64 × F64) := none
  poly : Option (List (F64 × F64)) := none
  ids : Option (List Int) := none
  area_id : Option String := none
  around : Option FilterAround := none
deriving DecidableEq, Repr

/-- Rust `.map(|s| s.parse().ok().unwrap())`: a parse failure is a panic. -/
def seqOrCrash : List (Option α) → PRes (List α)
  | [] => pure []
  | some a :: rest => do pure (a :: (← seqOrCrash rest))
  | none :: _ => .crash "called Option::unwrap on a None value"

/-- Rust `.chunks(2)` followed by the panicking pairing of `filter_poly`. -/
def chunks2 : List α → PRes (List (α × α))
  | [] => pure []
  | [_] => .crash "Invalid point in poly filter"
  | a :: b :: rest => do pure ((a, b) :: (← chunks2 rest))

/-- Method `Filter::from_pest`.  Malformed numbers are dropped or defaulted
exactly as the source does (`filter_map(.. .ok())`, `if let Ok(..)`). -/
def Filter.from_pest (p : Pair) : PRes Filter :=
  match p.rule with
  | .filter_bbox =>
    let coords := ((splitOnChar ',' p.str.data).map
      (fun piece => parseF64 (rustTrim ⟨piece⟩))).filterMap id
    pure (match coords with
      | [a, b, c, d] => { bbox := some (a, b, c, d) }
      | _ => ({} : Filter))
  | .filter_poly =>
    match p.children with
    | [] => .crash "called Option::unwrap on a None value"
    | a :: _ => do
      let nums ← seqOrCrash
        ((splitWsRuns ((a.str.data.drop 1).dropLast)).map (fun piece => parseF64 ⟨piece⟩))
      let points ← chunks2 nums
      pure ({ poly := some points } : Filter)
  | .filter_osm_id =>
    pure (match parseI64 p.str with
      | some id => { ids := some [id] }
      | none => ({} : Filter))
  | .filter_osm_ids =>
    pure { ids := some ((p.children.map (fun c => parseI64 c.str)).filterMap id) }
  | .filter_area =>
    pure { area_id := (p.children.find? (fun c => c.rule == .ID)).map (·.str) }
  | .filter_around => do
    let around ← p.children.foldlM
      (fun around child =>
        match child.rule with
        | .filter_around_core =>
          match (child.children.find? (fun c => c.rule == .ID)).map (·.str) with
          | some core => pure { around with core := core }
          | none => .crash "called Option::unwrap on a None value"
        | .filter_around_radius =>
          pure (match parseF64 child.str with
            | some radius => { around with radius := radius }
            | none => around)
        | r => perr ("Invalid rule " ++ r.name ++ " for FilterAround") child.span)
      ({} : FilterAround)
    pure ({ around := some around } : Filter)
  | r => perr ("Invalid rule " ++ r.name ++ " for Filter") p.span

/-- Struct `Filters` (`filters.rs`). -/
structure Filters where
  filters : List Filter
deriving DecidableEq, Repr

/-- Method `Filters::from_pest`. -/
def Filters.from_pest (p : Pair) : PRes Filters := do
  pure ⟨← p.children.mapM Filter.from_pest⟩

/-- Method `Filters::has_ids`. -/
def Filters.has_ids (fs : Filters) : Bool :=
  fs.filters.any (fun f => f.ids.isSome)

/-- Struct `QueryObjects` (`query_objects.rs`). -/
structure QueryObjects where
  object_type : String := ""
  selectors : Selectors := {}
  filters : Option Filters := none
  set : Option String := none
  asignation : Option String := none
deriving DecidableEq, Repr

/-- Method `QueryObjects::from_pest`. -/
def QueryObjects.from_pest (regexOk : String → Bool) (p : Pair) : PRes QueryObjects :=
  match p.rule with
  | .query_object =>
    p.children.foldlM
      (fun q child =>
        match child.rule with
        | .object_type => pure { q with object_type := child.str }
        | .selector => do
          let sel ← Selector.from_pest regexOk child
          pure { q with selectors := ⟨q.selectors.selectors ++ [sel]⟩ }
        | .filters => do
          pure { q with filters := some (← Filters.from_pest child) }
        | .ID => pure { q with set := some child.str }
        | .asignation =>
          match (child.children.find? (fun c => c.rule == .ID)).map (·.str) with
          | some a => pure { q with asignation := some a }
          | none => .crash "called Option::unwrap on a None value"
        | r => perr ("Invalid rule " ++ r.name ++ " for QueryObjects") child.span)
      ({} : QueryObjects)
  | r => perr ("Invalid rule " ++ r.name ++ " for QueryObjects") p.span

/-- Struct `QueryRecurse` (`query_recurse.rs`); the counter-drawn
`default_asignation` field is not modelled (no claim mentions it). -/
structure QueryRecurse where
  recurse : String := ""
  asignation : Option String := none
deriving DecidableEq, Repr

/-- Method `QueryRecurse::from_pest` (no outer-rule check in the source). -/
def QueryRecurse.from_pest (p : Pair) : PRes QueryRecurse :=
  p.children.foldlM
    (fun q child =>
      match child.rule with
      | .query_recurse => pure { q with recurse := child.str }
      | .asignation =>
        match (child.children.find? (fun c => c.rule == .ID)).map (·.str) with
        | some a => pure { q with asignation := some a }
        | none => .crash "called Option::unwrap on a None value"
      | r => perr ("Invalid rule " ++ r.name ++ " for QueryRecurse") child.span)
    ({} : QueryRecurse)

/-- Struct `Out` (`out.rs`). -/
structure Out where
  set : Option String := none
  geom : String := "geom"
  level_of_details : String := "body"
deriving DecidableEq, Repr

/-- Method `Out::from_pest`. -/
def Out.from_pest (p : Pair) : PRes Out :=
  p.children.foldlM
    (fun out child =>
      match child.rule with
      | .ID => pure { out with set := some child.str }
      | .out_geom => pure { out with geom := child.str }
      | .out_level_of_details => pure { out with level_of_details := child.str }
      | r => perr ("Invalid rule " ++ r.name ++ " for Out") child.span)
    ({} : Out)

mutual

/-- The closed sum `QueryType` (`request.rs`). -/
inductive QueryType where
  | QueryObjects (q : QueryObjects)
  | QueryUnion (q : QueryUnion)
  | QueryRecurse (q : QueryRecurse)

/-- Struct `QueryUnion` (`query_union.rs`). -/
inductive QueryUnion where
  | mk (queries : List QueryType) (asignation : Option String)

end

def QueryUnion.queries : QueryUnion → List QueryType
  | .mk qs _ => qs

def QueryUnion.asignation : QueryUnion → Option String
  | .mk _ a => a


theorem Pair.sizeOf_children_lt (p : Pair) : sizeOf p.children < sizeOf p := by
  cases p with
  | mk r s sp cs =>
    simp only [Pair.children, Pair.mk.sizeOf_spec]
    omega

mutual

/-- Method `QueryType::from_pest` (`request.rs`). -/
def QueryType.from_pest (regexOk : String → Bool) (p : Pair) : PRes QueryType :=
  match p.rule with
  | .query_object =>
    match QueryObjects.from_pest regexOk p with
    | .ok q => .ok (.QueryObjects q)
    | .err e => .err e
    | .crash m => .crash m
  | .query_union =>
    match QueryUnion.from_pest regexOk p with
    | .ok q => .ok (.QueryUnion q)
    | .err e => .err e
    | .crash m => .crash m
  | .query_recurse =>
    match QueryRecurse.from_pest p with
    | .ok q => .ok (.QueryRecurse q)
    | .err e => .err e
    | .crash m => .crash m
  | _ => perr "Invalid rule for QueryType" p.span
termination_by (sizeOf p, 1)
decreasing_by
  simp_wf
  apply Prod.Lex.right
  omega

/-- Method `QueryUnion::from_pest` (`query_union.rs`): an unexpected child rule
panics (`panic!`), it is not reported as an error. -/
def QueryUnion.from_pest (regexOk : String → Bool) (p : Pair) : PRes QueryUnion :=
  QueryUnion.fromChildren regexOk (.mk [] none) p.children
termination_by (sizeOf p, 0)
decreasing_by
  simp_wf
  apply Prod.Lex.left
  exact Pair.sizeOf_children_lt p

/-- Loop of `QueryUnion::from_pest` over the pair's children. -/
def QueryUnion.fromChildren (regexOk : String → Bool) (acc : QueryUnion) :
    List Pair → PRes QueryUnion
  | [] => .ok acc
  | .mk rule _s _sp kids :: rest =>
    match rule with
    | .query_sequence =>
      match QueryUnion.fromSeq regexOk acc kids with
      | .ok acc2 => QueryUnion.fromChildren regexOk acc2 rest
      | .err e => .err e
      | .crash m => .crash m
    | .asignation =>
      match (kids.find? (fun c => c.rule == .ID)).map (·.str) with
      | some a => QueryUnion.fromChildren regexOk (.mk acc.queries (some a)) rest
      | none => .crash "called Option::unwrap on a None value"
    | r => .crash ("Unexpected rule in QueryUnion: " ++ r.name)
termination_by l => (sizeOf l, 0)
decreasing_by
  all_goals simp_wf
  all_goals apply Prod.Lex.left
  all_goals first
    | omega
    | (simp only [Pair.mk.sizeOf_spec, List.cons.sizeOf_spec]; omega)

/-- Inner loop of `QueryUnion::from_pest` over a `query_sequence`. -/
def QueryUnion.fromSeq (regexOk : String → Bool) (acc : QueryUnion) :
    List Pair → PRes QueryUnion
  | [] => .ok acc
  | q :: rest =>
    match QueryType.from_pest regexOk q with
    | .ok qt => QueryUnion.fromSeq regexOk (.mk (acc.queries ++ [qt]) acc.asignation) rest
    | .err e => .err e
    | .crash m => .crash m
termination_by l => (sizeOf l, 0)
decreasing_by
  all_goals simp_wf
  all_goals apply Prod.Lex.left
  all_goals first
    | omega
    | (simp only [Pair.mk.sizeOf_spec, List.cons.sizeOf_spec]; omega)

end

/-! ## SQL emitters -/

/-- Struct `SubrequestJoin` (`subrequest.rs` / `filters.rs`; the union of the two
versions in the snapshot — the field set of `filters.rs`, which includes
`precompute_set`).  The Rust field `from` is named `fromJoin` here
(`from` is a Lean keyword). -/
structure SubrequestJoin where
  precompute_set : Option String := none
  precompute : Option (List String) := none
  fromJoin : Option String := none
  clauses : String := ""
deriving DecidableEq, Repr

/-- Method `Selector::to_sql` (`selectors.rs`).  `none` models the panic on a
selector with an operator but neither value nor compiled regex, or with
an unsupported operator. -/
def Selector.to_sql (d : SqlDialect) (sel : Selector) : Option String :=
  let key := d.hash_exists sel.key
  match sel.operator with
  | none => some (if sel.not then "NOT " ++ key else key)
  | some op => do
    let value ←
      match sel.value with
      | some v => some (d.escape_literal v)
      | none =>
        match sel.value_regex with
        | some regex => some ("'" ++ regex ++ "'")
        | none => none
    match op with
    | "=" =>
      if value.isEmpty then some ("NOT " ++ key)
      else some ("(" ++ key ++ " AND " ++ d.hash_get sel.key ++ " = " ++ value ++ ")")
    | "!=" => some ("(NOT " ++ key ++ " OR " ++ d.hash_get sel.key ++ " != " ++ value ++ ")")
    | "~" => some ("(" ++ key ++ " AND " ++ d.hash_get sel.key ++ " ~ " ++ value ++ ")")
    | "!~" => some ("(NOT " ++ key ++ " OR " ++ d.hash_get sel.key ++ " !~ " ++ value ++ ")")
    | _ => none

/-- Method `Filter::bbox_clauses` (`filters.rs`): input order is
`(south, west, north, east)`, the linestring is emitted as
`west south, east north`. -/
def Filter.bbox_clauses (d : SqlDialect) (table : String)
    (bbox : F64 × F64 × F64 × F64) (srid : String) : String :=
  match bbox with
  | (south, west, north, east) =>
    d.st_intersects_extent_with_geom table
      (d.st_transform
        ("ST_Envelope('SRID=4326;LINESTRING(" ++ west.str ++ " " ++ south.str ++ ", "
          ++ east.str ++ " " ++ north.str ++ ")'::geometry)")
        srid)

/-- Method `Filter::poly_clauses` (`filters.rs`). -/
def Filter.poly_clauses (d : SqlDialect) (set : String) (poly : List (F64 × F64))
    (srid : String) : SubrequestJoin × SubrequestJoin :=
  let coords := String.intercalate ", "
    (poly.map fun p => p.2.str ++ " " ++ p.1.str)
  let polyGeom := d.st_transform ("'SRID=4326;POLYGON((" ++ coords ++ "))'::geometry") srid
  let poly_id := "poly_" ++ toString (rustHash64 polyGeom)
  ({ precompute_set := some poly_id
     precompute := none
     fromJoin := none
     clauses := "SELECT\n    geom,\n    STRUCT_PACK(\n        xmin := ST_XMin(geom),\n        ymin := ST_YMin(geom),\n        xmax := ST_XMax(geom),\n        ymax := ST_YMax(geom)\n    ) AS bbox\nFROM\n    VALUES((" ++ polyGeom ++ ")) AS p(geom)" },
   { precompute_set := none
     precompute := if d.is_precompute then some [poly_id] else none
     fromJoin := if !d.is_precompute then some ("    JOIN _" ++ poly_id ++ " ON true") else none
     clauses := d.st_intersects_with_geom set (d.table_precompute_geom poly_id) })

/-- Method `Filter::around_clause` (`filters.rs`): note that in the emitted UTM
zone formula the `+ 180` stands inside the `ST_X(...)` call, applied to
the centroid geometry. -/
def Filter.around_clause (d : SqlDialect) (set srid : String)
    (around : FilterAround) : String :=
  let core_geom := "(SELECT " ++ d.st_union ++ "(geom) FROM _" ++ around.core ++ ")"
  let utm_zone :=
    "\n                -- Calculate UTM zone from\n                32600 +\n                CASE WHEN ST_Y(ST_Centroid(\n                    "
      ++ core_geom
      ++ "\n                )) >= 0 THEN 1 ELSE 31 END +\n                floor(ST_X(ST_Centroid(\n                    "
      ++ core_geom
      ++ "\n                ) + 180) / 6)\n            "
  d.st_intersects_with_geom set
    (d.st_transform
      ("\n        ST_Buffer(\n            "
        ++ d.st_transform ("\n                " ++ core_geom) utm_zone
        ++ ",\n            " ++ around.radius.str ++ "\n        )")
      srid)

/-- Method `Filter::area_id_clause` (`filters.rs`). -/
def Filter.area_id_clause (d : SqlDialect) (set area_id : String) : SubrequestJoin :=
  { precompute_set := none
    precompute := if d.is_precompute then some [area_id] else none
    fromJoin := if !d.is_precompute then some ("    JOIN _" ++ area_id ++ " ON true") else none
    clauses := d.st_intersects_with_geom set (d.table_precompute_geom area_id) }

/-- Method `Filter::to_sql` (`filters.rs`): conjunction of the present kinds in
the fixed order bbox, poly, ids, area_id, around. -/
def Filter.to_sql (d : SqlDialect) (set srid : String) (f : Filter) :
    Option SubrequestJoin × SubrequestJoin :=
  let clauses : List SubrequestJoin :=
    (match f.bbox with
     | some bbox => [{ clauses := Filter.bbox_clauses d set bbox srid }]
     | none => [])
    ++ (match f.poly with
        | some poly => [(Filter.poly_clauses d set poly srid).2]
        | none => [])
    ++ (match f.ids with
        | some ids => [{ clauses := d.id_in_list "id" ids }]
        | none => [])
    ++ (match f.area_id with
        | some area_id => [Filter.area_id_clause d set area_id]
        | none => [])
    ++ (match f.around with
        | some around => [{ clauses := Filter.around_clause d set srid around }]
        | none => [])
  let pre : Option SubrequestJoin :=
    match f.poly with
    | some poly => some (Filter.poly_clauses d set poly srid).1
    | none => none
  let precompute := (clauses.filterMap (fun c => c.precompute)).flatten
  let fromJoins := clauses.filterMap (fun c => c.fromJoin)
  let clauses_join := String.intercalate " AND "
    (clauses.map fun c => strReplace c.clauses "\n" "\n    ")
  (pre,
   { precompute_set := none
     precompute := some precompute
     fromJoin := if fromJoins.isEmpty then none else some (String.intercalate "\n" fromJoins)
     clauses := clauses_join })

/-- Method `Filters::to_sql` (`filters.rs`). -/
def Filters.to_sql (d : SqlDialect) (set srid : String) (fs : Filters) :
    Option SubrequestJoin × SubrequestJoin :=
  let pairs := fs.filters.map (fun f => Filter.to_sql d set srid f)
  let pre := pairs.foldl (fun acc p => match p.1 with
    | some r => some r
    | none => acc) none
  let s := pairs.map (fun p => p.2)
  let fromStr := String.intercalate "\n" (s.filterMap (fun sj => sj.fromJoin))
  let clauses := String.intercalate " AND\n    " (s.map (fun sj => sj.clauses))
  (pre,
   { precompute_set := none
     precompute := some ((s.filterMap (fun c => c.precompute)).flatten)
     fromJoin := if fromStr.isEmpty then none else some fromStr
     clauses := clauses })

/-- The `from_table` choice of `QueryObjects::to_sql`
(`query_objects.rs` lines 85–97): no special case for `nwr`. -/
def QueryObjects.fromTable (q : QueryObjects) (default_set : String) : String :=
  match q.set with
  | none =>
    if (match q.filters with
        | some fs => fs.has_ids
        | none => false) then
      q.object_type ++ "_by_id"
    else
      q.object_type ++ "_by_geom"
  | some s => if s = "_" then default_set else "_" ++ s

/-- The `where_clauses` accumulation of `QueryObjects::to_sql`
(`query_objects.rs` lines 99–133): the `osm_type` discriminant is pushed
for neither `nwr` nor `area`; then the selector conjunction; then the
filter conjunction.  `none` models the panics reachable through
`Selector::to_sql` and `chars().next().unwrap()`. -/
def QueryObjects.whereClauses (d : SqlDialect) (srid default_set : String)
    (q : QueryObjects) : Option (List String) := do
  let typePart : List String ←
    if q.object_type = "nwr" then pure []
    else if q.object_type ≠ "area" then
      match q.object_type.data.head? with
      | some c => pure ["osm_type = '" ++ String.singleton c ++ "'"]
      | none => none
    else pure []
  let selPart : List String ←
    if q.selectors.selectors.isEmpty then pure []
    else do
      let sqls ← q.selectors.selectors.mapM (fun sel => Selector.to_sql d sel)
      pure [String.intercalate " AND " sqls]
  let filtPart : List String :=
    match q.filters with
    | some fs => [(Filters.to_sql d (q.fromTable default_set) srid fs).2.clauses]
    | none => []
  pure (typePart ++ selPart ++ filtPart)

/-- Method `QueryObjects::to_sql` (`query_objects.rs`). -/
def QueryObjects.to_sql (d : SqlDialect) (srid default_set : String)
    (q : QueryObjects) : Option (List SubrequestJoin) := do
  let from_table := q.fromTable default_set
  let filterRes :=
    match q.filters with
    | some fs => some (Filters.to_sql d from_table srid fs)
    | none => none
  let pre : Option SubrequestJoin := filterRes.bind (fun r => r.1)
  let precomputed : List String :=
    match filterRes with
    | some r => r.2.precompute.getD []
    | none => []
  let fromStr : String :=
    match filterRes with
    | some r =>
      match r.2.fromJoin with
      | some sj_from => from_table ++ "\n    " ++ sj_from
      | none => from_table
    | none => from_table
  let wcs ← q.whereClauses d srid default_set
  let where_clause := "WHERE\n    " ++ String.intercalate " AND\n    " wcs
  let main : SubrequestJoin :=
    { precompute_set := none
      precompute := some precomputed
      fromJoin := none
      clauses := "SELECT\n    " ++ from_table ++ ".*\nFROM\n    " ++ fromStr ++ "\n"
        ++ where_clause }
  pure ((match pre with
    | some r => [r]
    | none => []) ++ [main])

/-- Method `QueryRecurse::to_sql` (`query_recurse.rs` lines 73–115): the `>`
operator's three-branch `UNION ALL`, joining the bare tables `node` and
`way`. -/
def QueryRecurse.to_sql (default_set : String) : String :=
  "SELECT\n    way.*\nFROM\n    " ++ default_set
    ++ " AS way\n    JOIN node ON\n        node.id = ANY(way.nodes) AND\n        node.geom && way.geom\nWHERE\n    way.osm_type = 'w'\nUNION ALL\nSELECT\n    node.*\nFROM\n    "
    ++ default_set
    ++ " AS relation\n    JOIN LATERAL (\n        SELECT * FROM jsonb_to_recordset(members) AS t(ref bigint, role text, type text) WHERE type = 'n'\n    ) AS members ON\n        type = 'w'\n    JOIN node ON\n        node.id = members.ref\nWHERE\n    relation.osm_type = 'r'\nUNION ALL\nSELECT\n    way.*\nFROM\n    "
    ++ default_set
    ++ " AS relation\n    JOIN LATERAL (\n        SELECT * FROM jsonb_to_recordset(members) AS t(ref bigint, role text, type text) WHERE type = 'w'\n    ) AS members ON\n        true\n    JOIN way ON\n        way.id = members.ref\nWHERE\n    relation.osm_type = 'r'"

/-! ## Request: construction and top-level emissions -/

/-- Struct `Request` (`request.rs`): the `derivative` default of `timeout` is
`Some(160)`. -/
structure Request where
  timeout : Option Nat := some 160
  queries : List QueryType := []
  out : Option Out := none

/-- Body of the inner `query_sequence` loop of `Request::from_pest`. -/
def Request.fromPestQueryStep (regexOk : String → Bool) (req2 : Request)
    (qp : Pair) : PRes Request := do
  let qt ← QueryType.from_pest regexOk qp
  pure { req2 with queries := req2.queries ++ [qt] }

/-- Body of the outer loop of `Request::from_pest`. -/
def Request.fromPestStep (regexOk : String → Bool) (req : Request)
    (child : Pair) : PRes Request :=
  match child.rule with
  | .metadata =>
    match child.children.find? (fun c => c.rule == .number) with
    | none => pure { req with timeout := none }
    | some np =>
      match parseU32 np.str with
      | some n => pure { req with timeout := some n }
      | none => .crash "called Option::unwrap on a None value"
  | .query_sequence =>
    child.children.foldlM (Request.fromPestQueryStep regexOk) req
  | .out => do
    pure { req with out := some (← Out.from_pest child) }
  | _ => pure req

/-- Method `Request::from_pest` (`request.rs` lines 72–98): only `metadata`,
`query_sequence` and `out` children are interpreted; any other child
rule is silently skipped.  A `metadata` bracket with no `number` child
leaves `timeout = None`; an out-of-range number panics
(`parse::<u32>().ok().unwrap()`). -/
def Request.from_pest (regexOk : String → Bool) (p : Pair) : PRes Request :=
  p.children.foldlM (Request.fromPestStep regexOk) ({} : Request)

/-- Method `Request::to_sql` (`request.rs` lines 100–140).  The snapshot's
per-query trait methods are torn between file generations, so the
query lowering, the assignation lookup and the `Out` lowering
(each with dialect and SRID already applied) are taken as the
parameters `lower`, `asig` and `outSql`; the dialect's
`statement_timeout` is a plain `String` in the old `postgres.rs`,
modelled by `.getD ""` on the trait's `Option`. -/
def Request.to_sql (lower : QueryType → String → String) (asig : QueryType → String)
    (outSql : Out → String) (d : SqlDialect) (finalizer : Option String)
    (r : Request) : String :=
  let step := r.queries.foldl
    (fun (acc : List String × String) query =>
      let sql := indentLines "    " (lower query acc.2)
      let ds := asig query
      (acc.1 ++ ["_" ++ ds ++ " AS (\n" ++ sql ++ "\n)"], ds))
    ([], "_")
  let fin :=
    match finalizer with
    | some f =>
      (step.1 ++ ["__finalizer AS (\n" ++ indentLines "  " (strReplace f "\x7b\x7bquery\x7d\x7d" step.2) ++ "\n)"],
       "__finalizer")
    | none => step
  let with_join := String.intercalate ",\n" fin.1
  let select := outSql (r.out.getD {})
  let timeout := (d.statement_timeout ((r.timeout.getD 180).min 500 * 1000)).getD ""
  timeout ++ "\nWITH\n" ++ with_join ++ "\n" ++ select ++ "\nFROM\n    _" ++ fin.2 ++ "\n;"

/-- One step of the keep-or-precompute filtering of
`Subrequest::to_sql` (lines 163–179). -/
def Subrequest.assembleStep (d : SqlDialect) (precomputed : List String)
    (acc : List String × List (Bool × String × String))
    (c : Bool × String × String) : List String × List (Bool × String × String) :=
  if c.1 || !(precomputed.contains c.2.1) then (acc.1, acc.2 ++ [c])
  else
    match d.precompute c.2.1 c.2.2 with
    | some p => (acc.1 ++ p, acc.2)
    | none => (acc.1, acc.2 ++ [c])

/-- Method `Subrequest::to_sql` (`subrequest.rs` lines 162–194): the final
filtering/assembly step.  Each triple is `(is_out, set, sql)` as built
by lines 130–161; those lines call per-item `to_sql` methods whose
compatible implementations are absent from the snapshot, so the list is
taken as an argument and the property is proved for every value of it. -/
def Subrequest.assemble (d : SqlDialect) (precomputed : List String)
    (clauses : List (Bool × String × String)) : List String :=
  let step := clauses.foldl (Subrequest.assembleStep d precomputed) ([], [])
  let with_join := String.intercalate ",\n"
    (step.2.map fun c => "_" ++ c.2.1 ++ " AS (\n" ++ indentLines "    " c.2.2 ++ "\n)")
  let select := String.intercalate "\nUNION ALL\n"
    ((step.2.filter (fun c => c.1)).map fun c => "SELECT * FROM _" ++ c.2.1)
  step.1 ++ ["WITH\n" ++ with_join ++ "\n" ++ select ++ "\n;"]

/-- Modelled from the spec: the statement-list-returning
`Request::to_sql` of the current generation is absent from `src/` (only
`Subrequest::to_sql` and the dialects are present); per spec §4.3 the
returned list is the dialect's timeout statement (when there is one)
followed by the subrequest's statements. -/
def Request.toSqlStatements (d : SqlDialect) (timeoutMs : Nat)
    (precomputed : List String) (clauses : List (Bool × String × String)) : List String :=
  (match d.statement_timeout timeoutMs with
    | some s => [s]
    | none => []) ++ Subrequest.assemble d precomputed clauses

/-! ## Entry points (`mod.rs`, `lib.rs`) -/

/-- Function `parse_query` (`mod.rs`): the pest parse itself (the grammar file
`overpass.pest` is not under `src/`) is abstracted as the `pestParse`
argument producing the `request` pair. -/
def parse_query (regexOk : String → Bool) (pestParse : String → Except PErr Pair)
    (query : String) : PRes Request :=
  match pestParse query with
  | .ok pair => Request.from_pest regexOk pair
  | .error e => .err e

/-- Function `parse_query_json` (`lib.rs`): compiles with the default PostgreSQL
dialect (SRID 4326, no finalizer) or returns the error string; a Rust
panic (`crash`) propagates. -/
def parse_query_json (regexOk : String → Bool) (pestParse : String → Except PErr Pair)
    (lower : QueryType → String → String) (asig : QueryType → String)
    (outSql : Out → String) (query : String) : PRes String :=
  match parse_query regexOk pestParse query with
  | .ok request => .ok (Request.to_sql lower asig outSql postgres none request)
  | .err e => .ok ("Error parsing query: " ++ e.message)
  | .crash m => .crash m

/-! ## Helper lemmas -/

theorem listPrefix_self_append (l r : List Char) : l.isPrefixOf (l ++ r) = true := by
  induction l with
  | nil => simp [List.isPrefixOf]
  | cons c cs ih => simp [List.isPrefixOf, ih]

theorem strData_append (a b : String) : (a ++ b).data = a.data ++ b.data := rfl

theorem strStartsWith_append_left (p t : String) : strStartsWith (p ++ t) p = true := by
  simp [strStartsWith, strData_append, listPrefix_self_append]

theorem endsSemi_append (a t : String) (h : endsSemi t = true) (hne : t.data ≠ []) :
    endsSemi (a ++ t) = true := by
  simp only [endsSemi, beq_iff_eq] at *
  rw [strData_append, List.getLast?_append_of_ne_nil _ hne]
  exact h

/-! ## C10 -/

/-- C10: the DuckDB `st_transform` and `st_transform_reverse` act as the
identity exactly when the SRID is `4326`, and otherwise emit the
three-argument `ST_Transform` with the EPSG pair in the stated
directions. -/
theorem C10_duckdb_st_transform_identity (g srid : String) :
    (duckdb.st_transform g srid = g ↔ srid = "4326")
    ∧ (duckdb.st_transform_reverse g srid = g ↔ srid = "4326")
    ∧ (srid = "4326" →
        duckdb.st_transform g srid = g ∧ duckdb.st_transform_reverse g srid = g)
    ∧ (srid ≠ "4326" →
        duckdb.st_transform g srid
            = "ST_Transform(" ++ g ++ ", 'EPSG:4326', 'EPSG:" ++ srid ++ "')"
          ∧ duckdb.st_transform_reverse g srid
            = "ST_Transform(" ++ g ++ ", 'EPSG:" ++ srid ++ "', 'EPSG:4326')") := by
  have hT : duckdb.st_transform g srid =
      if srid = "4326" then g
      else "ST_Transform(" ++ g ++ ", 'EPSG:4326', 'EPSG:" ++ srid ++ "')" := rfl
  have hR : duckdb.st_transform_reverse g srid =
      if srid = "4326" then g
      else "ST_Transform(" ++ g ++ ", 'EPSG:" ++ srid ++ "', 'EPSG:4326')" := rfl
  by_cases h : srid = "4326"
  · subst h
    simp [hT, hR]
  · have hlen : ∀ (pre mid post : String), pre.data ≠ [] → (pre ++ mid ++ post ≠ mid) := by
      intro pre mid post hpre heq
      have h2 := congrArg String.length heq
      simp only [String.length_append] at h2
      have : 0 < pre.length := by
        cases hp : pre.data with
        | nil => exact absurd hp hpre
        | cons c cs => simp [String.length, hp]
      omega
    rw [hT, hR, if_neg h, if_neg h]
    refine ⟨?_, ?_, fun hc => absurd hc h, fun _ => ⟨rfl, rfl⟩⟩
    · constructor
      · intro heq
        exact absurd heq (by
          have := hlen ("ST_Transform(" ++ g ++ ", 'EPSG:4326', 'EPSG:") g ""
          intro he
          have h2 := congrArg String.length he
          simp only [String.length_append] at h2
          have h3 : (0:Nat) < ("ST_Transform(" : String).length := by decide
          omega)
      · intro hc
        exact absurd hc h
    · constructor
      · intro heq
        exact absurd heq (by
          intro he
          have h2 := congrArg String.length he
          simp only [String.length_append] at h2
          have h3 : (0:Nat) < ("ST_Transform(" : String).length := by decide
          omega)
      · intro hc
        exact absurd hc h

/-- C10 witness. -/
theorem C10_duckdb_st_transform_witness :
    duckdb.st_transform "geom" "4326" = "geom"
    ∧ duckdb.st_transform "geom" "9999"
        = "ST_Transform(geom, 'EPSG:4326', 'EPSG:9999')"
    ∧ duckdb.st_transform_reverse "geom" "9999"
        = "ST_Transform(geom, 'EPSG:9999', 'EPSG:4326')" :=
  ⟨(C10_duckdb_st_transform_identity "geom" "4326").1.mpr rfl,
   ((C10_duckdb_st_transform_identity "geom" "9999").2.2.2 (by decide)).1,
   ((C10_duckdb_st_transform_identity "geom" "9999").2.2.2 (by decide)).2⟩

/-! ## C5 -/

set_option maxRecDepth 8192 in
/-- C5: `QueryRecurse::to_sql` on the set `_a` is a three-branch
`UNION ALL` — nodes of ways via `ANY(way.nodes)`, nodes of relation
members of type `n`, ways of relation members of type `w` — but the
joined base tables are the bare `node` and `way`, not `node_by_id` and
`way_by_id` as the spec and the repository's own `subrequest.rs`
`test_recursive` expect. -/
theorem C5_recurse_tables_eval :
    strContainsSub (QueryRecurse.to_sql "_a") "UNION ALL" = true
    ∧ strContainsSub (QueryRecurse.to_sql "_a") "node.id = ANY(way.nodes)" = true
    ∧ strContainsSub (QueryRecurse.to_sql "_a") "WHERE type = 'n'" = true
    ∧ strContainsSub (QueryRecurse.to_sql "_a") "WHERE type = 'w'" = true
    ∧ strContainsSub (QueryRecurse.to_sql "_a") "jsonb_to_recordset(members) AS t(ref bigint, role text, type text)" = true
    ∧ strContainsSub (QueryRecurse.to_sql "_a") "JOIN node ON" = true
    ∧ strContainsSub (QueryRecurse.to_sql "_a") "JOIN way ON" = true
    ∧ strContainsSub (QueryRecurse.to_sql "_a") "node_by_id" = false
    ∧ strContainsSub (QueryRecurse.to_sql "_a") "way_by_id" = false := by
  decide

/-! ## C4 -/

/-- C4: a numerically malformed id (here `2^63`, one past `i64::MAX`,
which the grammar's digit-run rule accepts) does not make
`Filter::from_pest` return an error: the value is silently dropped —
`id:` lists keep `ids = Some([])`, a single id keeps `ids = None` —
although `parseI64` itself fails on it. -/
theorem C4_malformed_id_silently_dropped :
    Filter.from_pest (.mk .filter_osm_ids "id:9223372036854775808" ⟨5, 27⟩
        [.mk .number "9223372036854775808" ⟨8, 27⟩ []])
      = .ok { ids := some [] }
    ∧ Filter.from_pest (.mk .filter_osm_id "9223372036854775808" ⟨5, 24⟩ [])
      = .ok ({} : Filter)
    ∧ parseI64 "9223372036854775808" = none
    ∧ parseI64 "9223372036854775807" = some 9223372036854775807 := by
  decide

/-! ## C6 -/

/-- The UTM-zone operand exactly as emitted by `Filter::around_clause`:
`32600`, plus `1` or `31` selected by the sign of `ST_Y(ST_Centroid(core))`,
plus `floor(ST_X(ST_Centroid(core) + 180) / 6)` — the `+ 180` lies
inside the `ST_X(...)` call, added to the centroid geometry, not to the
value of `ST_X`. -/
def claimUtmZone (core_geom : String) : String :=
  "\n                -- Calculate UTM zone from\n                32600 +\n                CASE WHEN ST_Y(ST_Centroid(\n                    "
    ++ core_geom
    ++ "\n                )) >= 0 THEN 1 ELSE 31 END +\n                floor(ST_X(ST_Centroid(\n                    "
    ++ core_geom
    ++ "\n                ) + 180) / 6)\n            "

/-- The claim's right operand shape
`ST_Transform(ST_Buffer(ST_Transform(core_geom, utm_zone), radius), working_srid)`
with the source's interior layout. -/
def claimAroundOperand (core_geom radiusStr srid : String) : String :=
  "ST_Transform("
    ++ ("\n        ST_Buffer(\n            "
      ++ ("ST_Transform(" ++ ("\n                " ++ core_geom) ++ ", "
        ++ claimUtmZone core_geom ++ ")")
      ++ ",\n            " ++ radiusStr ++ "\n        )")
    ++ ", " ++ srid ++ ")"

/-- C6 (amended): for the PostgreSQL dialect, the `around` predicate is
`ST_Intersects` of the claimed transform/buffer operand against the
set's geometry, with the UTM zone formula of `claimUtmZone` — i.e. with
`180` added to the centroid geometry inside `ST_X`, not to the `ST_X`
value. -/
theorem C6_around_amended (set srid core : String) (radius : F64) :
    Filter.around_clause postgres set srid ⟨core, radius⟩ =
      "ST_Intersects(\n    "
        ++ claimAroundOperand ("(SELECT ST_Union(geom) FROM _" ++ core ++ ")") radius.str srid
        ++ ",\n    " ++ set ++ ".geom\n)" := by
  show "ST_Intersects(\n    "
        ++ ("ST_Transform("
          ++ ("\n        ST_Buffer(\n            "
            ++ ("ST_Transform("
              ++ ("\n                "
                ++ ("(SELECT " ++ "ST_Union" ++ "(geom) FROM _" ++ core ++ ")"))
              ++ ", "
              ++ claimUtmZone ("(SELECT " ++ "ST_Union" ++ "(geom) FROM _" ++ core ++ ")")
              ++ ")")
            ++ ",\n            " ++ radius.str ++ "\n        )")
          ++ ", " ++ srid ++ ")")
        ++ ",\n    " ++ set ++ ".geom\n)" = _
  rw [show ("(SELECT " ++ "ST_Union" : String) = "(SELECT ST_Union" from rfl]
  rw [show (("(SELECT ST_Union" ++ "(geom) FROM _" : String)) = "(SELECT ST_Union(geom) FROM _" from rfl]
  simp [claimAroundOperand, claimUtmZone, String.append_assoc]

set_option maxRecDepth 8192 in
/-- C6 counterexample: at the concrete filter `(around.a:12.3)` the
emitted text never closes `ST_X(ST_Centroid(..))` before adding `180`
(no `)) + 180` occurs), while `ST_Centroid(..) + 180` inside `ST_X` does
occur — refuting the claim's placement of the addition. -/
theorem C6_cx_plus180_inside_stx :
    strContainsSub (Filter.around_clause postgres "_" "9999" ⟨"a", ⟨"12.3"⟩⟩)
        ")) + 180" = false
    ∧ strContainsSub (Filter.around_clause postgres "_" "9999" ⟨"a", ⟨"12.3"⟩⟩)
        ") + 180) / 6)" = true := by
  decide

/-! ## C1 -/

/-- The claim's (amended) source-table rule: with an explicit input set
`s` the source is `_s` (the previous default set when `s = "_"`); with
no input set it is `<type>_by_id` exactly when a filters group carrying
`ids` is present — regardless of the object type, including `nwr` — and
`<type>_by_geom` otherwise. -/
def claimSourceTable (q : QueryObjects) (default_set : String) : String :=
  match q.set with
  | some s => if s = "_" then default_set else "_" ++ s
  | none =>
    if (q.filters.map Filters.has_ids).getD false then q.object_type ++ "_by_id"
    else q.object_type ++ "_by_geom"

theorem fromTable_eq_claim (q : QueryObjects) (ds : String) :
    q.fromTable ds = claimSourceTable q ds := by
  unfold QueryObjects.fromTable claimSourceTable
  cases q.set with
  | some s => rfl
  | none =>
    cases q.filters with
    | some fs => rfl
    | none => rfl

theorem listPrefix_refl (l : List Char) : l.isPrefixOf l = true := by
  have := listPrefix_self_append l []
  simpa using this

theorem sw_self (p : String) : strStartsWith p p = true := by
  simp [strStartsWith, listPrefix_refl]

theorem listPrefix_append_of {p s : List Char} (t : List Char)
    (h : p.isPrefixOf s = true) : p.isPrefixOf (s ++ t) = true := by
  induction p generalizing s with
  | nil => simp [List.isPrefixOf]
  | cons a as ih =>
    cases s with
    | nil => simp [List.isPrefixOf] at h
    | cons b bs =>
      simp only [List.cons_append, List.isPrefixOf, Bool.and_eq_true] at h ⊢
      exact ⟨h.1, ih h.2⟩

theorem sw_extend {s p : String} (t : String) (h : strStartsWith s p = true) :
    strStartsWith (s ++ t) p = true := by
  simp only [strStartsWith, strData_append]
  exact listPrefix_append_of _ h

theorem listPrefix_prepend (x : List Char) {z y : List Char}
    (h : z.isPrefixOf y = true) : (x ++ z).isPrefixOf (x ++ y) = true := by
  induction x with
  | nil => simpa using h
  | cons a as ih => simp [List.isPrefixOf, ih]

theorem sw_prepend (x : String) {y z : String} (h : strStartsWith y z = true) :
    strStartsWith (x ++ y) (x ++ z) = true := by
  simp only [strStartsWith, strData_append]
  exact listPrefix_prepend _ h

/-- C1 (amended): whenever `QueryObjects::to_sql` succeeds, its final
`SELECT` draws from `claimSourceTable` — `_set` for an explicit input
set, `<type>_by_id` exactly when an `ids` filter is present (the object
type, `nwr` included, plays no role), `<type>_by_geom` otherwise. -/
theorem C1_source_table_amended (d : SqlDialect) (srid ds : String) (q : QueryObjects)
    (res : List SubrequestJoin) (h : QueryObjects.to_sql d srid ds q = some res) :
    q.fromTable ds = claimSourceTable q ds
    ∧ ∃ pre sj, res = pre ++ [sj]
        ∧ strStartsWith sj.clauses
            ("SELECT\n    " ++ claimSourceTable q ds ++ ".*\nFROM\n    "
              ++ claimSourceTable q ds) = true := by
  refine ⟨fromTable_eq_claim q ds, ?_⟩
  rw [← fromTable_eq_claim q ds]
  cases hw : q.whereClauses d srid ds with
  | none =>
    rw [QueryObjects.to_sql, hw] at h
    simp [Option.bind] at h
  | some wcs =>
    rw [QueryObjects.to_sql, hw] at h
    refine ⟨_, _, (Option.some.inj h).symm, ?_⟩
    cases hf : q.filters with
    | none =>
      dsimp only [hf]
      apply sw_extend
      apply sw_extend
      exact sw_self _
    | some fs =>
      dsimp only [hf]
      cases hj : (Filters.to_sql d (q.fromTable ds) srid fs).2.fromJoin with
      | none =>
        dsimp only [hj]
        apply sw_extend
        apply sw_extend
        exact sw_self _
      | some j =>
        dsimp only [hj]
        apply sw_extend
        apply sw_extend
        rw [show q.fromTable ds ++ "\n    " ++ j = q.fromTable ds ++ ("\n    " ++ j) from
          (String.append_assoc _ _ _)]
        rw [show ("SELECT\n    " ++ q.fromTable ds ++ ".*\nFROM\n    ")
              ++ (q.fromTable ds ++ ("\n    " ++ j))
            = (("SELECT\n    " ++ q.fromTable ds ++ ".*\nFROM\n    ") ++ q.fromTable ds)
              ++ ("\n    " ++ j) from (String.append_assoc _ _ _).symm]
        apply sw_extend
        exact sw_self _

/-- The concrete `node(id:1)`-shaped query used by the C1 witness. -/
def c1q : QueryObjects :=
  { object_type := "node", filters := some ⟨[{ ids := some [1] }]⟩ }

/-- C1 witness: a `node(id:…)` query with no explicit set draws from
`node_by_id`. -/
theorem C1_source_table_witness :
    c1q.fromTable "_" = claimSourceTable c1q "_"
    ∧ ∃ pre sj,
        (QueryObjects.to_sql postgres "4326" "_" c1q).getD [] = pre ++ [sj]
        ∧ strStartsWith sj.clauses
            ("SELECT
    " ++ claimSourceTable c1q "_" ++ ".*
FROM
    "
              ++ claimSourceTable c1q "_") = true :=
  C1_source_table_amended postgres "4326" "_" c1q _ rfl

/-- C1 counterexample: a plain `nwr` query (no set, no filters) draws
from `nwr_by_geom`, not `nwr_by_id` as the claim states. -/
theorem C1_cx_nwr_by_geom :
    QueryObjects.to_sql postgres "4326" "_" { object_type := "nwr" }
      = some [{ precompute := some [],
                clauses := "SELECT\n    nwr_by_geom.*\nFROM\n    nwr_by_geom\nWHERE\n    " }]
    ∧ strContainsSub "SELECT\n    nwr_by_geom.*\nFROM\n    nwr_by_geom\nWHERE\n    "
        "nwr_by_id" = false := by
  decide

/-! ## C2 -/

/-- The claim's (amended) object-type discriminant: emitted for `node`,
`way` and `relation` only; suppressed for both `nwr` and `area`. -/
def claimDiscriminant (t : String) : List String :=
  if t = "node" then ["osm_type = 'n'"]
  else if t = "way" then ["osm_type = 'w'"]
  else if t = "relation" then ["osm_type = 'r'"]
  else []

/-- The claim's WHERE-predicate order: discriminant, then the selector
conjunction (absent when there are no selectors), then the filter
conjunction (absent when there is no filters group). -/
def claimWhereClauses (d : SqlDialect) (srid default_set : String)
    (q : QueryObjects) : Option (List String) := do
  let selPart : List String ←
    if q.selectors.selectors.isEmpty then pure []
    else do
      let sqls ← q.selectors.selectors.mapM (fun sel => Selector.to_sql d sel)
      pure [String.intercalate " AND " sqls]
  let filtPart : List String :=
    match q.filters with
    | some fs => [(Filters.to_sql d (q.fromTable default_set) srid fs).2.clauses]
    | none => []
  pure (claimDiscriminant q.object_type ++ selPart ++ filtPart)

/-- C2 (amended): for all five grammar object types the source's WHERE
list equals the claim's — discriminant (suppressed for `nwr` and for
`area`), then selectors, then filters, in that fixed order. -/
theorem C2_where_order_amended (d : SqlDialect) (srid ds : String) (q : QueryObjects)
    (h : q.object_type = "node" ∨ q.object_type = "way" ∨ q.object_type = "relation"
      ∨ q.object_type = "nwr" ∨ q.object_type = "area") :
    QueryObjects.whereClauses d srid ds q = claimWhereClauses d srid ds q := by
  rcases h with h | h | h | h | h <;>
    simp only [QueryObjects.whereClauses, claimWhereClauses, claimDiscriminant, h] <;>
    rfl

/-- C2 witness at the `node` type. -/
theorem C2_where_order_witness :
    QueryObjects.whereClauses postgres "4326" "_" { object_type := "node" }
      = claimWhereClauses postgres "4326" "_" { object_type := "node" } :=
  C2_where_order_amended postgres "4326" "_" { object_type := "node" } (Or.inl rfl)

/-- C2 counterexample: for an `area` query with one selector no
`osm_type` discriminant is emitted at all — the claim's
`osm_type = 'a'` clause for `area` does not appear. -/
theorem C2_cx_area_no_discriminant :
    QueryObjects.to_sql postgres "4326" "_"
        { object_type := "area",
          selectors := ⟨[{ key := "k", operator := some "=", value := some "v" }]⟩ }
      = some [{ precompute := some [],
                clauses := "SELECT\n    area_by_geom.*\nFROM\n    area_by_geom\nWHERE\n    (tags?'k' AND tags->>'k' = 'v')" }]
    ∧ strContainsSub
        "SELECT\n    area_by_geom.*\nFROM\n    area_by_geom\nWHERE\n    (tags?'k' AND tags->>'k' = 'v')"
        "osm_type" = false := by
  decide

/-! ## C3 -/

/-- Projection of a parse outcome to the parsed request's timeout. -/
def PRes.timeoutOf : PRes Request → Option (Option Nat)
  | .ok r => some r.timeout
  | _ => none

theorem PRes.bind_eq (x : PRes α) (f : α → PRes β) : x >>= f = PRes.bind x f := rfl

theorem PRes.pure_eq (a : α) : (pure a : PRes α) = PRes.ok a := rfl

theorem fromPestQueryStep_timeout (regexOk : String → Bool) (req : Request)
    (qp : Pair) (r : Request)
    (h : Request.fromPestQueryStep regexOk req qp = .ok r) :
    r.timeout = req.timeout := by
  unfold Request.fromPestQueryStep at h
  cases hq : QueryType.from_pest regexOk qp with
  | ok qt =>
    rw [hq, PRes.bind_eq] at h
    simp only [PRes.bind, PRes.pure_eq, PRes.ok.injEq] at h
    rw [← h]
  | err e =>
    rw [hq, PRes.bind_eq] at h
    simp only [PRes.bind] at h
    exact PRes.noConfusion h
  | crash m =>
    rw [hq, PRes.bind_eq] at h
    simp only [PRes.bind] at h
    exact PRes.noConfusion h

theorem fromPestQuerySeq_timeout (regexOk : String → Bool) :
    ∀ (l : List Pair) (req r : Request),
      l.foldlM (Request.fromPestQueryStep regexOk) req = .ok r →
      r.timeout = req.timeout := by
  intro l
  induction l with
  | nil =>
    intro req r h
    simp only [List.foldlM, PRes.pure_eq, PRes.ok.injEq] at h
    rw [← h]
  | cons x xs ih =>
    intro req r h
    simp only [List.foldlM, PRes.bind_eq] at h
    cases hstep : Request.fromPestQueryStep regexOk req x with
    | ok req2 =>
      rw [hstep] at h
      simp only [PRes.bind] at h
      exact (ih req2 r h).trans (fromPestQueryStep_timeout regexOk req x req2 hstep)
    | err e =>
      rw [hstep] at h
      simp only [PRes.bind] at h
      exact PRes.noConfusion h
    | crash m =>
      rw [hstep] at h
      simp only [PRes.bind] at h
      exact PRes.noConfusion h

theorem fromPestStep_timeout (regexOk : String → Bool) (req : Request)
    (child : Pair) (r : Request)
    (hm : (child.rule != Rule.metadata) = true)
    (h : Request.fromPestStep regexOk req child = .ok r) :
    r.timeout = req.timeout := by
  unfold Request.fromPestStep at h
  cases hr : child.rule <;> rw [hr] at h <;>
    simp only [PRes.pure_eq, PRes.ok.injEq] at h
  case metadata =>
    rw [hr] at hm
    simp at hm
  case query_sequence =>
    exact fromPestQuerySeq_timeout regexOk child.children req r h
  case out =>
    rw [PRes.bind_eq] at h
    cases ho : Out.from_pest child with
    | ok o =>
      rw [ho] at h
      simp only [PRes.bind, PRes.pure_eq, PRes.ok.injEq] at h
      rw [← h]
    | err e =>
      rw [ho] at h
      simp only [PRes.bind] at h
      exact PRes.noConfusion h
    | crash m =>
      rw [ho] at h
      simp only [PRes.bind] at h
      exact PRes.noConfusion h
  all_goals rw [← h]

theorem fromPest_fold_timeout (regexOk : String → Bool) :
    ∀ (l : List Pair) (req r : Request),
      (l.all fun c => c.rule != Rule.metadata) = true →
      l.foldlM (Request.fromPestStep regexOk) req = .ok r →
      r.timeout = req.timeout := by
  intro l
  induction l with
  | nil =>
    intro req r _ h
    simp only [List.foldlM, PRes.pure_eq, PRes.ok.injEq] at h
    rw [← h]
  | cons x xs ih =>
    intro req r hall h
    simp only [List.all_cons, Bool.and_eq_true] at hall
    simp only [List.foldlM, PRes.bind_eq] at h
    cases hstep : Request.fromPestStep regexOk req x with
    | ok req2 =>
      rw [hstep] at h
      simp only [PRes.bind] at h
      exact (ih req2 r hall.2 h).trans
        (fromPestStep_timeout regexOk req x req2 hall.1 hstep)
    | err e =>
      rw [hstep] at h
      simp only [PRes.bind] at h
      exact PRes.noConfusion h
    | crash m =>
      rw [hstep] at h
      simp only [PRes.bind] at h
      exact PRes.noConfusion h

/-- C3 (amended): the emitted statement-timeout value is
`min(timeout, 500) * 1000` (so values over 500 are clamped to
`500000 ms`), where `timeout` defaults to 160 when the request carries
no metadata bracket at all — but to 180 when a metadata bracket without
a timeout number was parsed (`unwrap_or(180)` in `Request::to_sql`). -/
theorem C3_timeout_amended :
    (∀ (lower : QueryType → String → String) (asig : QueryType → String)
        (outSql : Out → String) (fin : Option String) (r : Request),
      strStartsWith (Request.to_sql lower asig outSql postgres fin r)
        ("SET statement_timeout = "
          ++ toString ((r.timeout.getD 180).min 500 * 1000) ++ ";") = true)
    ∧ (∀ (r : Request) (t : Nat), r.timeout = some t →
        (r.timeout.getD 180).min 500 * 1000 = min t 500 * 1000)
    ∧ (∀ (r : Request) (t : Nat), r.timeout = some t → 500 < t →
        (r.timeout.getD 180).min 500 * 1000 = 500000)
    ∧ (∀ (regexOk : String → Bool) (p : Pair) (r : Request),
        Request.from_pest regexOk p = .ok r →
        (p.children.all fun c => c.rule != Rule.metadata) = true →
        r.timeout = some 160) := by
  refine ⟨?_, ?_, ?_, ?_⟩
  · intro lower asig outSql fin r
    exact sw_extend _ (sw_extend _ (sw_extend _ (sw_extend _ (sw_extend _
      (sw_extend _ (sw_extend _ (sw_self _)))))))
  · intro r t h
    rw [h]
    rfl
  · intro r t h h500
    rw [h]
    show Nat.min t 500 * 1000 = 500000
    have hmin : Nat.min t 500 = 500 := by
      show min t 500 = 500
      omega
    rw [hmin]
  · intro regexOk p r h hall
    exact fromPest_fold_timeout regexOk p.children ({} : Request) r hall h

/-- C3 witness: a 600-second timeout is clamped to `500000` ms in the
emission, and a request tree without metadata keeps the 160 default. -/
theorem C3_timeout_witness :
    strStartsWith (Request.to_sql (fun _ _ => "") (fun _ => "q") (fun _ => "SELECT j")
        postgres none { timeout := some 600 }) "SET statement_timeout = 500000;" = true
    ∧ (({ timeout := some 600 } : Request).timeout.getD 180).min 500 * 1000 = 500000
    ∧ ({} : Request).timeout = some 160 :=
  ⟨C3_timeout_amended.1 (fun _ _ => "") (fun _ => "q") (fun _ => "SELECT j") none
      { timeout := some 600 },
   C3_timeout_amended.2.2.1 { timeout := some 600 } 600 rfl (by omega),
   C3_timeout_amended.2.2.2 (fun _ => true) (.mk .request "node;" ⟨0, 5⟩ []) {} rfl rfl⟩

/-- C3 counterexample: a parsed metadata bracket that carries no timeout
number leaves `timeout = None`, and the emission then uses
`180000` ms — not the claimed 160-second default. -/
theorem C3_cx_metadata_without_timeout :
    PRes.timeoutOf (Request.from_pest (fun _ => true)
        (.mk .request "[out:json];node;" ⟨0, 16⟩
          [.mk .metadata "[out:json]" ⟨0, 10⟩ []])) = some none
    ∧ strStartsWith
        (Request.to_sql (fun _ _ => "") (fun _ => "q") (fun _ => "SELECT j")
          postgres none { timeout := none })
        "SET statement_timeout = 180000;" = true
    ∧ (180000 : Nat) ≠ 160 * 1000 := by
  decide

/-! ## C7 -/

theorem f64CharOk_not_ws (c : Char) (h : f64CharOk c = true) :
    c.isWhitespace = false := by
  cases hws : c.isWhitespace with
  | false => rfl
  | true =>
    exfalso
    simp only [f64CharOk, Bool.or_eq_true, decide_eq_true_eq] at h
    simp only [Char.isWhitespace, Bool.or_eq_true, decide_eq_true_eq] at hws
    rcases hws with ((hc | hc) | hc) | hc <;> subst hc <;>
      rcases h with (hd | hd) | hd <;> revert hd <;> decide

theorem isCanonF64_all {cs : List Char} (h : isCanonF64 cs = true) :
    ∀ c ∈ cs, f64CharOk c = true := by
  have h1 : cs.all f64CharOk = true := by
    simp only [isCanonF64, Bool.and_eq_true] at h
    exact h.1
  exact fun c hc => List.all_eq_true.mp h1 c hc

theorem comma_not_mem {cs : List Char} (h : isCanonF64 cs = true) : ',' ∉ cs := by
  intro hm
  have := isCanonF64_all h ',' hm
  exact absurd this (by decide)

theorem dropWhile_eq_self_of_none {p : Char → Bool} :
    ∀ {l : List Char}, (∀ c ∈ l, p c = false) → l.dropWhile p = l
  | [], _ => rfl
  | c :: cs, h => by
    have hc : p c = false := h c (by simp)
    simp [List.dropWhile, hc]

theorem trimChars_eq_self {cs : List Char}
    (h : ∀ c ∈ cs, Char.isWhitespace c = false) : trimChars cs = cs := by
  unfold trimChars
  rw [dropWhile_eq_self_of_none h]
  rw [dropWhile_eq_self_of_none (fun c hc => h c (List.mem_reverse.mp hc))]
  exact List.reverse_reverse cs

theorem rustTrim_canon {s : String} (h : isCanonF64 s.data = true) :
    rustTrim s = s := by
  unfold rustTrim
  rw [trimChars_eq_self (fun c hc => f64CharOk_not_ws c (isCanonF64_all h c hc))]

theorem parseF64_canon {s : String} (h : isCanonF64 s.data = true) :
    parseF64 s = some ⟨s⟩ := by
  unfold parseF64
  rw [if_pos h]

theorem splitOnChar_ne_nil (c : Char) : ∀ (l : List Char), splitOnChar c l ≠ []
  | [] => by simp [splitOnChar]
  | x :: xs => by
    have := splitOnChar_ne_nil c xs
    cases hs : splitOnChar c xs with
    | nil => exact absurd hs this
    | cons h t =>
      simp only [splitOnChar, hs]
      split <;> simp

theorem splitOnChar_not_mem {c : Char} : ∀ (l : List Char), c ∉ l → splitOnChar c l = [l]
  | [], _ => rfl
  | x :: xs, h => by
    have hx : ¬(x = c) := fun he => h (by simp [he])
    have ih := splitOnChar_not_mem xs (fun hm => h (List.mem_cons_of_mem _ hm))
    simp [splitOnChar, ih, hx]

theorem splitOnChar_append {c : Char} :
    ∀ (l₁ l₂ : List Char), c ∉ l₁ →
      splitOnChar c (l₁ ++ c :: l₂) = l₁ :: splitOnChar c l₂
  | [], l₂, _ => by
    cases hs : splitOnChar c l₂ with
    | nil => exact absurd hs (splitOnChar_ne_nil c l₂)
    | cons h t => simp [splitOnChar, hs]
  | x :: xs, l₂, h => by
    have hx : ¬(x = c) := fun he => h (by simp [he])
    have ih := splitOnChar_append xs l₂ (fun hm => h (List.mem_cons_of_mem _ hm))
    simp only [List.cons_append, splitOnChar, List.append_eq, ih]
    rw [if_neg hx]

/-- C7: (a) for every dialect and every bbox `(south, west, north, east)`
the emitted extent predicate embeds
`LINESTRING(west south, east north)` in an `ST_Envelope` with SRID 4326
transformed to the working SRID; (b) `Filter::from_pest` parses the four
comma-separated numbers into the `bbox` tuple in input order
`(south, west, north, east)`. -/
theorem C7_bbox_order :
    (∀ (d : SqlDialect) (table srid : String) (south west north east : F64),
      Filter.bbox_clauses d table (south, west, north, east) srid =
        d.st_intersects_extent_with_geom table
          (d.st_transform
            ("ST_Envelope('SRID=4326;LINESTRING(" ++ west.str ++ " " ++ south.str ++ ", "
              ++ east.str ++ " " ++ north.str ++ ")'::geometry)") srid))
    ∧ (∀ (s w n e : String) (sp : Span),
        isCanonF64 s.data = true → isCanonF64 w.data = true →
        isCanonF64 n.data = true → isCanonF64 e.data = true →
        Filter.from_pest (.mk .filter_bbox (s ++ "," ++ w ++ "," ++ n ++ "," ++ e) sp [])
          = .ok { bbox := some (⟨s⟩, ⟨w⟩, ⟨n⟩, ⟨e⟩) }) := by
  constructor
  · intro d table srid south west north east
    rfl
  · intro s w n e sp hs hw hn he
    show pure (match (((splitOnChar ','
        (Pair.str (.mk .filter_bbox (s ++ "," ++ w ++ "," ++ n ++ "," ++ e) sp [])).data).map
        (fun piece => parseF64 (rustTrim ⟨piece⟩))).filterMap id : List F64) with
      | [a, b, c, d] => ({ bbox := some (a, b, c, d) } : Filter)
      | _ => ({} : Filter)) = _
    have hdata : (Pair.str (.mk .filter_bbox (s ++ "," ++ w ++ "," ++ n ++ "," ++ e) sp [])).data
        = s.data ++ ',' :: (w.data ++ ',' :: (n.data ++ ',' :: e.data)) := by
      show (s ++ "," ++ w ++ "," ++ n ++ "," ++ e).data = _
      simp [strData_append, List.append_assoc]
    rw [hdata]
    rw [splitOnChar_append _ _ (comma_not_mem hs)]
    rw [splitOnChar_append _ _ (comma_not_mem hw)]
    rw [splitOnChar_append _ _ (comma_not_mem hn)]
    rw [splitOnChar_not_mem _ (comma_not_mem he)]
    have hps : parseF64 (rustTrim ⟨s.data⟩) = some ⟨s⟩ := by
      rw [show (⟨s.data⟩ : String) = s from rfl, rustTrim_canon hs, parseF64_canon hs]
    have hpw : parseF64 (rustTrim ⟨w.data⟩) = some ⟨w⟩ := by
      rw [show (⟨w.data⟩ : String) = w from rfl, rustTrim_canon hw, parseF64_canon hw]
    have hpn : parseF64 (rustTrim ⟨n.data⟩) = some ⟨n⟩ := by
      rw [show (⟨n.data⟩ : String) = n from rfl, rustTrim_canon hn, parseF64_canon hn]
    have hpe : parseF64 (rustTrim ⟨e.data⟩) = some ⟨e⟩ := by
      rw [show (⟨e.data⟩ : String) = e from rfl, rustTrim_canon he, parseF64_canon he]
    simp [hps, hpw, hpn, hpe, List.filterMap, PRes.pure_eq]

/-- C7 witness at the concrete bbox `1,2,3,4`. -/
theorem C7_bbox_order_witness :
    Filter.bbox_clauses postgres "node_by_geom" (⟨"1"⟩, ⟨"2"⟩, ⟨"3"⟩, ⟨"4"⟩) "9999" =
      postgres.st_intersects_extent_with_geom "node_by_geom"
        (postgres.st_transform
          "ST_Envelope('SRID=4326;LINESTRING(2 1, 4 3)'::geometry)" "9999")
    ∧ Filter.from_pest (.mk .filter_bbox "1,2,3,4" ⟨5, 12⟩ [])
        = .ok { bbox := some (⟨"1"⟩, ⟨"2"⟩, ⟨"3"⟩, ⟨"4"⟩) } :=
  ⟨C7_bbox_order.1 postgres "node_by_geom" "9999" ⟨"1"⟩ ⟨"2"⟩ ⟨"3"⟩ ⟨"4"⟩,
   C7_bbox_order.2 "1" "2" "3" "4" ⟨5, 12⟩ (by decide) (by decide) (by decide) (by decide)⟩

/-! ## C8 -/

theorem precompute_endsSemi (d : SqlDialect) (hd : d = postgres ∨ d = duckdb)
    (set sql : String) (l : List String) (h : d.precompute set sql = some l) :
    ∀ s ∈ l, endsSemi s = true := by
  rcases hd with rfl | rfl
  · simp only [postgres] at h
    exact Option.noConfusion h
  · simp only [duckdb, Option.some.injEq] at h
    subst h
    intro s hs
    simp only [List.mem_cons, List.mem_singleton, List.not_mem_nil, or_false] at hs
    rcases hs with rfl | rfl
    · exact endsSemi_append _ "\n;" (by decide) (by decide)
    · exact endsSemi_append _ "\n)\n;" (by decide) (by decide)

theorem assembleStep_endsSemi (d : SqlDialect) (hd : d = postgres ∨ d = duckdb)
    (precomputed : List String) (acc : List String × List (Bool × String × String))
    (c : Bool × String × String) (hacc : ∀ s ∈ acc.1, endsSemi s = true) :
    ∀ s ∈ (Subrequest.assembleStep d precomputed acc c).1, endsSemi s = true := by
  unfold Subrequest.assembleStep
  split
  · exact hacc
  · cases hp : d.precompute c.2.1 c.2.2 with
    | some p =>
      intro s hs
      rw [List.mem_append] at hs
      rcases hs with hs | hs
      · exact hacc s hs
      · exact precompute_endsSemi d hd c.2.1 c.2.2 p hp s hs
    | none => exact hacc

theorem assemble_fold_endsSemi (d : SqlDialect) (hd : d = postgres ∨ d = duckdb)
    (precomputed : List String) :
    ∀ (clauses : List (Bool × String × String))
      (acc : List String × List (Bool × String × String)),
      (∀ s ∈ acc.1, endsSemi s = true) →
      ∀ s ∈ (clauses.foldl (Subrequest.assembleStep d precomputed) acc).1,
        endsSemi s = true := by
  intro clauses
  induction clauses with
  | nil => intro acc hacc; exact hacc
  | cons c cs ih =>
    intro acc hacc
    simp only [List.foldl_cons]
    exact ih (Subrequest.assembleStep d precomputed acc c)
      (assembleStep_endsSemi d hd precomputed acc c hacc)

/-- C8: for both concrete dialects, every statement in the list returned
by the top-level emission ends with `;` — the PostgreSQL timeout
statement, every DuckDB `CREATE TEMP TABLE` and `SET variable`
precompute statement, and the final combined `WITH … SELECT` statement,
for every possible outcome of the per-item lowering. -/
theorem C8_statements_end_semicolon (d : SqlDialect)
    (hd : d = postgres ∨ d = duckdb) (timeoutMs : Nat)
    (precomputed : List String) (clauses : List (Bool × String × String)) :
    ∀ s ∈ Request.toSqlStatements d timeoutMs precomputed clauses,
      endsSemi s = true := by
  intro s hs
  unfold Request.toSqlStatements at hs
  rw [List.mem_append] at hs
  rcases hs with hs | hs
  · rcases hd with rfl | rfl
    · simp only [postgres, List.mem_singleton] at hs
      subst hs
      exact endsSemi_append _ ";" (by decide) (by decide)
    · simp only [duckdb, List.not_mem_nil] at hs
  · simp only [Subrequest.assemble] at hs
    rw [List.mem_append] at hs
    rcases hs with hs | hs
    · exact assemble_fold_endsSemi d hd precomputed clauses ([], []) (by simp) s hs
    · simp only [List.mem_singleton] at hs
      subst hs
      exact endsSemi_append _ "\n;" (by decide) (by decide)

/-- C8 witness: the final statement of an empty DuckDB emission. -/
theorem C8_statements_end_semicolon_witness :
    endsSemi "WITH\n\n\n;" = true :=
  C8_statements_end_semicolon duckdb (Or.inr rfl) 0 [] [] "WITH\n\n\n;" (by decide)

/-! ## C9 -/

/-- C9 (amended): whenever `parse_query_json` returns a string, that
string is the PostgreSQL compilation of the parsed request, or — exactly
when parsing fails — `"Error parsing query: "` followed by the error
message; a Rust panic during AST construction, however, propagates
(`crash`) instead of producing a string. -/
theorem C9_dichotomy_amended (regexOk : String → Bool)
    (pestParse : String → Except PErr Pair) (lower : QueryType → String → String)
    (asig : QueryType → String) (outSql : Out → String) (query : String) :
    (∀ s, parse_query_json regexOk pestParse lower asig outSql query = .ok s →
      (∃ r, parse_query regexOk pestParse query = .ok r
          ∧ s = Request.to_sql lower asig outSql postgres none r)
      ∨ (∃ e, parse_query regexOk pestParse query = .err e
          ∧ s = "Error parsing query: " ++ e.message))
    ∧ (∀ r, parse_query regexOk pestParse query = .ok r →
        parse_query_json regexOk pestParse lower asig outSql query
          = .ok (Request.to_sql lower asig outSql postgres none r))
    ∧ (∀ e, parse_query regexOk pestParse query = .err e →
        parse_query_json regexOk pestParse lower asig outSql query
          = .ok ("Error parsing query: " ++ e.message)) := by
  refine ⟨?_, ?_, ?_⟩
  · intro s h
    unfold parse_query_json at h
    cases hp : parse_query regexOk pestParse query with
    | ok r =>
      rw [hp] at h
      injection h with h
      exact Or.inl ⟨r, rfl, h.symm⟩
    | err e =>
      rw [hp] at h
      injection h with h
      exact Or.inr ⟨e, rfl, h.symm⟩
    | crash m =>
      rw [hp] at h
      exact PRes.noConfusion h
  · intro r hp
    unfold parse_query_json
    rw [hp]
  · intro e hp
    unfold parse_query_json
    rw [hp]

/-- C9 witness: a failing parse yields the error string. -/
theorem C9_dichotomy_witness :
    parse_query_json (fun _ => true)
        (fun _ => .error ⟨"expected request", ⟨0, 1⟩⟩)
        (fun _ _ => "") (fun _ => "") (fun _ => "") "@@"
      = .ok ("Error parsing query: " ++ "expected request") :=
  (C9_dichotomy_amended (fun _ => true)
      (fun _ => .error ⟨"expected request", ⟨0, 1⟩⟩)
      (fun _ _ => "") (fun _ => "") (fun _ => "") "@@").2.2
    ⟨"expected request", ⟨0, 1⟩⟩ rfl

/-- C9 counterexample: an in-grammar timeout number one past `u32::MAX`
panics inside `Request::from_pest` (`parse::<u32>().ok().unwrap()`), so
`parse_query_json` aborts instead of returning a string — the claim's
"never panics" fails. -/
theorem C9_cx_timeout_overflow_crash :
    parse_query_json (fun _ => true)
        (fun _ => .ok (.mk .request "[out:json][timeout:4294967296];node;out;" ⟨0, 40⟩
          [.mk .metadata "[out:json][timeout:4294967296]" ⟨0, 30⟩
            [.mk .number "4294967296" ⟨19, 29⟩ []]]))
        (fun _ _ => "") (fun _ => "") (fun _ => "")
        "[out:json][timeout:4294967296];node;out;"
      = .crash "called Option::unwrap on a None value" := by
  decide
